import Mathlib

/-!
Shallow embedding of the fxhash chromium-extract job dispatch and
reconciliation engine (batch-tester service): the `JobsGPU` queued lane
(submission, waiter registry, reconciliation loop), the `JobsNoGPU`
synchronous lane, and the `JobsFactoryClass.runJob` dispatcher.

External collaborators (AWS Batch, S3, axios HTTP calls, the JS runtime's
JSON.parse and the file-type sniffing library) are modelled as oracles
supplied per call/cycle. JS numbers that can be NaN are modelled by `JsNum`;
values that can be `undefined` inside the command array by `JsVal`.
Byte buffers are lists of naturals; parsed JSON feature payloads are
modelled opaquely as strings.
-/

/-- Bytes of a Buffer (each entry is taken mod 256 where it matters). -/
abbrev ByteBuf := List Nat

/-- Opaque model of a parsed JSON feature payload (result of JSON.parse). -/
abbrev Features := String

/-- A JS number that may be NaN (e.g. the result of parseInt). -/
inductive JsNum where
  | int (n : Int)
  | nan
deriving DecidableEq, Repr

/-- A JS value pushed into the container command array: the source pushes
strings, numbers (`resolution.x as any`) and possibly `undefined`
(`settings.canvasSelector!` when absent). -/
inductive JsVal where
  | str (s : String)
  | num (v : JsNum)
  | undef
deriving DecidableEq, Repr

/-- types/math.ts Vec2, with components produced by parseInt (may be NaN). -/
structure Vec2 where
  x : JsNum
  y : JsNum
deriving DecidableEq, Repr

/-- types/Capture.ts CaptureMode enum. -/
inductive CaptureMode where
  | CANVAS
  | CUSTOM
  | VIEWPORT
deriving DecidableEq, Repr

/-- String value of a CaptureMode enum member. -/
def CaptureMode.toStr : CaptureMode → String
  | .CANVAS => "CANVAS"
  | .CUSTOM => "CUSTOM"
  | .VIEWPORT => "VIEWPORT"

/-- types/Capture.ts CaptureTriggerMode enum. -/
inductive CaptureTriggerMode where
  | DELAY
  | FN_TRIGGER
deriving DecidableEq, Repr

/-- String value of a CaptureTriggerMode enum member. -/
def CaptureTriggerMode.toStr : CaptureTriggerMode → String
  | .DELAY => "DELAY"
  | .FN_TRIGGER => "FN_TRIGGER"

/-- types/Capture.ts CaptureSettings. Optional fields are Option. -/
structure CaptureSettings where
  url : String
  mode : CaptureMode
  triggerMode : Option CaptureTriggerMode
  resolution : Option Vec2
  delay : Option JsNum
  canvasSelector : Option String
  gpu : Option Bool
deriving DecidableEq, Repr

/-- types/Responses.ts ExtractError.UNKNOWN. -/
def ExtractError.UNKNOWN : String := "UNKNOWN"

/-- types/Responses.ts ExtractError.JOB_QUEUE_FAILED. -/
def ExtractError.JOB_QUEUE_FAILED : String := "JOB_QUEUE_FAILED"

/-- types/Responses.ts ExtractError.JOB_EXECUTION_FAILED. -/
def ExtractError.JOB_EXECUTION_FAILED : String := "JOB_EXECUTION_FAILED"

/-- types/Jobs.ts JobResponse. -/
structure JobResponse where
  captureBase64 : String
  features : Option Features
deriving DecidableEq, Repr

/-- types/Jobs.ts JobResolution: a tagged record with type "success" or
"failure", an optional error string and optional data. -/
structure JobResolution where
  type : String
  error : Option String
  data : Option JobResponse
deriving DecidableEq, Repr

/-- A resolution of shape `resolve(.. type: "failure", error: e ..)`. -/
def failureRes (e : String) : JobResolution :=
  ⟨"failure", some e, none⟩

/-- A resolution of shape `resolve(.. type: "success", data: .. )` as built
by JobsGPU.jobSuccess (features always present). -/
def successRes (cap : String) (f : Features) : JobResolution :=
  ⟨"success", none, some ⟨cap, some f⟩⟩

/-- types/Jobs.ts JobWaiting: a registered waiter of the GPU lane. The
continuation is identified by the waiter (its external job id). -/
structure JobWaiting where
  id : String
  started : Nat
deriving DecidableEq, Repr

/-- One entry of an AWS Batch ListJobs jobSummaryList. -/
structure JobSummary where
  jobId : String
  status : String
deriving DecidableEq, Repr

/-- An invocation of a waiter's continuation: the waiter's job id together
with the JobResolution it was resolved with. -/
abbrev ResolveEvent := String × JobResolution

/-- The environment configuration read from process.env by JobsGPU. -/
structure ExtractEnv where
  jobDefArn : String
  jobName : String
  queueArn : String
  queuePriorityArn : String
  bucket : String
deriving DecidableEq, Repr

/-! ## utils/files.ts -/

/-- The base64 alphabet. -/
def base64Chars : List Char :=
  "ABCDEFGHIJKLMNOPQRSTUVWXYZabcdefghijklmnopqrstuvwxyz0123456789+/".toList

/-- Character of the base64 alphabet at index i (i < 64). -/
def base64Char (i : Nat) : Char := base64Chars.getD i 'A'

/-- Base64-encode a byte list, 3 bytes at a time, with padding: the model of
Buffer.toString with base64 encoding. -/
def base64Go : List Nat → List Char
  | [] => []
  | [b0] =>
    let v0 := b0 % 256
    [base64Char (v0 / 4), base64Char (v0 % 4 * 16), '=', '=']
  | [b0, b1] =>
    let v0 := b0 % 256
    let v1 := b1 % 256
    [base64Char (v0 / 4), base64Char (v0 % 4 * 16 + v1 / 16),
     base64Char (v1 % 16 * 4), '=']
  | b0 :: b1 :: b2 :: rest =>
    let v0 := b0 % 256
    let v1 := b1 % 256
    let v2 := b2 % 256
    base64Char (v0 / 4) :: base64Char (v0 % 4 * 16 + v1 / 16) ::
      base64Char (v1 % 16 * 4 + v2 / 64) :: base64Char (v2 % 64) ::
      base64Go rest

/-- Buffer.toString base64 as a String. -/
def base64Encode (buf : ByteBuf) : String :=
  String.mk (base64Go buf)

/-- utils/files.ts bufferToBase64: base64-encode the buffer, then sniff the
file type (FileType.fromBuffer, an external library modelled by the `sniff`
oracle); when a mime type is found return a data URL, else the bare base64
string. -/
def bufferToBase64 (sniff : ByteBuf → Option String) (buffer : ByteBuf) : String :=
  let base64 := base64Encode buffer
  match sniff buffer with
  | some mime => "data:" ++ mime ++ ";base64," ++ base64
  | none => base64

/-! ## JobsGPU.addJob: command build and submission -/

/-- Base command arguments always pushed first by JobsGPU.addJob. -/
def baseCommandArgs (settings : CaptureSettings) : List JsVal :=
  [.str "node", .str "index.js", .str "--url", .str settings.url,
   .str "--mode", .str settings.mode.toStr]

/-- JobsGPU.addJob command construction (part_003 lines 40-65): base args;
then for CANVAS `--selector canvasSelector` (undefined when absent, the `!`
assertion is erased at runtime), otherwise `--resX x --resY y` (a missing
resolution raises a TypeError, modelled as `Except.error`); then
`--trigger triggerMode` when triggerMode is set; then `--delay delay` when
delay is non-null and not NaN. -/
def buildCommand (settings : CaptureSettings) : Except Unit (List JsVal) := do
  let cmd ← match settings.mode with
    | .CANVAS =>
      let sel : JsVal := match settings.canvasSelector with
        | some s => .str s
        | none => .undef
      Except.ok (baseCommandArgs settings ++ [.str "--selector", sel])
    | _ =>
      match settings.resolution with
      | none => Except.error ()
      | some r =>
        Except.ok (baseCommandArgs settings ++
          [.str "--resX", .num r.x, .str "--resY", .num r.y])
  let cmd := match settings.triggerMode with
    | some t => cmd ++ [.str "--trigger", .str t.toStr]
    | none => cmd
  let cmd := match settings.delay with
    | some (.int n) => cmd ++ [.str "--delay", .num (.int n)]
    | _ => cmd
  pure cmd

/-- The SubmitJobCommand input actually sent to AWS Batch. -/
structure Submission where
  jobDefinition : String
  jobName : String
  jobQueue : String
  command : List JsVal
deriving DecidableEq, Repr

/-- Outcome of the external SubmitJob call: the call may throw, or return a
response whose jobId may be absent. -/
inductive SubmitOutcome where
  | throws
  | ok (jobId : Option String)
deriving DecidableEq, Repr

/-- Result of one JobsGPU.addJob call: the registry after the call, the
resolutions of this request's continuation performed during the call, and
the submissions sent to AWS Batch. -/
structure AddJobResult where
  jobs : List JobWaiting
  resolved : List JobResolution
  submissions : List Submission
deriving DecidableEq, Repr

/-- JobsGPU.addJob (part_003 lines 32-104): build the command (a thrown
TypeError lands in the catch), submit to the priority or standard queue
according to `request.params.priority` (JS truthiness: only `some true` is
truthy), treat a missing or empty jobId as a failure (`!response.jobId`),
and on success push a waiter started at the current clock value. Every
caught error resolves the continuation with JOB_QUEUE_FAILED. -/
def addJobGPU (env : ExtractEnv) (submit : Submission → SubmitOutcome)
    (priority : Option Bool) (settings : CaptureSettings)
    (now : Nat) (jobs : List JobWaiting) : AddJobResult :=
  match buildCommand settings with
  | .error _ => ⟨jobs, [failureRes ExtractError.JOB_QUEUE_FAILED], []⟩
  | .ok cmd =>
    let sub : Submission :=
      ⟨env.jobDefArn, env.jobName,
       if priority = some true then env.queuePriorityArn else env.queueArn,
       cmd⟩
    match submit sub with
    | .throws => ⟨jobs, [failureRes ExtractError.JOB_QUEUE_FAILED], [sub]⟩
    | .ok none => ⟨jobs, [failureRes ExtractError.JOB_QUEUE_FAILED], [sub]⟩
    | .ok (some jid) =>
      if jid = "" then ⟨jobs, [failureRes ExtractError.JOB_QUEUE_FAILED], [sub]⟩
      else ⟨jobs ++ [⟨jid, now⟩], [], [sub]⟩

/-! ## JobsGPU registry removal and resolution helpers -/

/-- Remove the first occurrence of `job`, if present. Models
`this.jobs.indexOf(job)` followed by `splice(index, 1)` for the found
index (JS object identity; waiters are compared by value here, which
coincides when no two waiters carry equal fields). -/
def removeFirstJob : List JobWaiting → JobWaiting → Option (List JobWaiting)
  | [], _ => none
  | j :: rest, job =>
    if j = job then some rest
    else (removeFirstJob rest job).map (j :: ·)

/-- JobsGPU.removeJobFromQueue (part_003 lines 106-109): splice out the job
at `indexOf(job)`. When the job is absent, indexOf returns -1 and
`splice(-1, 1)` removes the last element of the array. -/
def removeJobFromQueue (jobs : List JobWaiting) (job : JobWaiting) :
    List JobWaiting :=
  match removeFirstJob jobs job with
  | some l => l
  | none => jobs.dropLast

/-- Per-cycle oracle for the reconciliation loop: the clock, whether each
external call throws, the two queue listings (jobSummaryList may be
undefined), the S3 get outcomes per key (throw, or a response whose Body
may be undefined), JSON.parse and file-type sniffing. -/
structure CycleInput where
  now : Nat
  cancelThrows : String → Bool
  stdThrows : Bool
  stdList : Option (List JobSummary)
  priThrows : Bool
  priList : Option (List JobSummary)
  s3 : String → Except Unit (Option ByteBuf)
  parse : ByteBuf → Option Features
  sniff : ByteBuf → Option String

/-- Result of JobsGPU.jobSuccess: registry afterwards, the single
continuation invocation, and the S3 keys requested. -/
structure SuccessFetchResult where
  jobs : List JobWaiting
  event : ResolveEvent
  gets : List String
deriving DecidableEq, Repr

/-- JobsGPU.jobSuccess (part_003 lines 111-155): remove the job from the
queue first, then fetch `id/preview.png`; if that call throws the features
key is never requested and the catch resolves with JOB_EXECUTION_FAILED.
Otherwise fetch `id/features.json`; when both Bodies are present and
JSON.parse succeeds, resolve with success (base64 preview plus parsed
features); any throw or missing Body resolves with JOB_EXECUTION_FAILED. -/
def jobSuccess (inp : CycleInput) (job : JobWaiting)
    (jobs : List JobWaiting) : SuccessFetchResult :=
  match inp.s3 (job.id ++ "/preview.png") with
  | .error _ =>
    ⟨removeJobFromQueue jobs job,
     (job.id, failureRes ExtractError.JOB_EXECUTION_FAILED),
     [job.id ++ "/preview.png"]⟩
  | .ok prevBody =>
    match inp.s3 (job.id ++ "/features.json") with
    | .error _ =>
      ⟨removeJobFromQueue jobs job,
       (job.id, failureRes ExtractError.JOB_EXECUTION_FAILED),
       [job.id ++ "/preview.png", job.id ++ "/features.json"]⟩
    | .ok featBody =>
      match featBody, prevBody with
      | some fb, some pb =>
        match inp.parse fb with
        | some f =>
          ⟨removeJobFromQueue jobs job,
           (job.id, successRes (bufferToBase64 inp.sniff pb) f),
           [job.id ++ "/preview.png", job.id ++ "/features.json"]⟩
        | none =>
          ⟨removeJobFromQueue jobs job,
           (job.id, failureRes ExtractError.JOB_EXECUTION_FAILED),
           [job.id ++ "/preview.png", job.id ++ "/features.json"]⟩
      | _, _ =>
        ⟨removeJobFromQueue jobs job,
         (job.id, failureRes ExtractError.JOB_EXECUTION_FAILED),
         [job.id ++ "/preview.png", job.id ++ "/features.json"]⟩

/-- JobsGPU.jobFailed (part_003 lines 157-167): remove the job from the
queue and resolve its continuation with JOB_EXECUTION_FAILED. -/
def jobFailed (job : JobWaiting) (jobs : List JobWaiting) :
    List JobWaiting × ResolveEvent :=
  (removeJobFromQueue jobs job,
   (job.id, failureRes ExtractError.JOB_EXECUTION_FAILED))

/-- One-hour timeout ceiling of the sweep (60 * 60 * 1000 ms). -/
def TIMEOUT_MS : Nat := 3600000

/-- Result of the timeout sweep: registry, cancel attempts (job ids),
continuation invocations, and whether the sweep completed without a thrown
cancel call (`alive = false` aborts the cycle). -/
structure SweepResult where
  jobs : List JobWaiting
  cancels : List String
  events : List ResolveEvent
  alive : Bool
deriving DecidableEq, Repr

/-- The timeout sweep of JobsGPU.loop (part_003 lines 179-191):
`for (const job of this.jobs)` with index `k` into the live array. A
timed-out job gets a CancelJobCommand; if that call throws the exception
propagates and the cycle dies. Otherwise jobFailed splices the job out, and
the JS array iterator then skips the element shifted into the current slot.
`fuel` bounds the recursion by the initial array length. -/
def sweepGo (inp : CycleInput) :
    Nat → List JobWaiting → Nat → List String → List ResolveEvent →
    SweepResult
  | 0, jobs, _, cancels, events => ⟨jobs, cancels, events, true⟩
  | fuel + 1, jobs, k, cancels, events =>
    if h : k < jobs.length then
      if TIMEOUT_MS ≤ inp.now - jobs[k].started then
        if inp.cancelThrows jobs[k].id then
          ⟨jobs, cancels ++ [jobs[k].id], events, false⟩
        else
          sweepGo inp fuel (removeJobFromQueue jobs jobs[k]) (k + 1)
            (cancels ++ [jobs[k].id])
            (events ++ [(jobs[k].id, failureRes ExtractError.JOB_EXECUTION_FAILED)])
      else sweepGo inp fuel jobs (k + 1) cancels events
    else ⟨jobs, cancels, events, true⟩

/-- The timeout sweep started at index 0 with enough fuel. -/
def sweepTimeouts (inp : CycleInput) (jobs : List JobWaiting) : SweepResult :=
  sweepGo inp jobs.length jobs 0 [] []

/-- Result of one matching pass over a queue listing. -/
structure MatchResult where
  jobs : List JobWaiting
  events : List ResolveEvent
  gets : List String
deriving DecidableEq, Repr

/-- One matching pass of JobsGPU.loop (part_003 lines 223-239 and 270-286):
`for (let i = this.jobs.length - 1; i >= 0; i--)` over the live array
(removals are synchronous, so downward iteration visits each remaining
waiter once); a waiter found in the listing with status SUCCEEDED goes to
jobSuccess, FAILED to jobFailed, anything else is left registered. -/
def matchGo (inp : CycleInput) (listing : Option (List JobSummary)) :
    List JobWaiting → Nat → List ResolveEvent → List String → MatchResult
  | jobs, 0, events, gets => ⟨jobs, events, gets⟩
  | jobs, i + 1, events, gets =>
    match jobs[i]? with
    | none => matchGo inp listing jobs i events gets
    | some job =>
      match (listing.getD []).find? (fun j => j.jobId == job.id) with
      | none => matchGo inp listing jobs i events gets
      | some jr =>
        if jr.status = "SUCCEEDED" then
          matchGo inp listing (jobSuccess inp job jobs).jobs i
            (events ++ [(jobSuccess inp job jobs).event])
            (gets ++ (jobSuccess inp job jobs).gets)
        else if jr.status = "FAILED" then
          matchGo inp listing (jobFailed job jobs).1 i
            (events ++ [(jobFailed job jobs).2]) gets
        else matchGo inp listing jobs i events gets

/-- A matching pass started from the top index of the current registry. -/
def matchQueue (inp : CycleInput) (listing : Option (List JobSummary))
    (jobs : List JobWaiting) : MatchResult :=
  matchGo inp listing jobs jobs.length [] []

/-- Result of one reconciliation cycle: registry, continuation invocations,
cancel attempts, S3 keys requested, and the delay of the rescheduled next
cycle (`none` when an uncaught exception aborted the cycle before the
`setTimeout` call). -/
structure CycleResult where
  jobs : List JobWaiting
  events : List ResolveEvent
  cancels : List String
  gets : List String
  next : Option Nat
deriving DecidableEq, Repr

/-- One execution of JobsGPU.loop (part_003 lines 169-291): the timeout
sweep; then, only when the registry is non-empty, the standard-queue
listing and matching pass followed by the priority-queue listing and
matching pass (a thrown ListJobs call aborts the cycle); finally
`setTimeout(this.loop, FETCH_JOB_STATUS_INTERVAL_MS)`. There is no
try/catch in the loop body. -/
def loopCycle (interval : Nat) (inp : CycleInput)
    (jobs : List JobWaiting) : CycleResult :=
  let s := sweepTimeouts inp jobs
  if s.alive then
    if s.jobs.length > 0 then
      if inp.stdThrows then ⟨s.jobs, s.events, s.cancels, [], none⟩
      else
        let m1 := matchQueue inp inp.stdList s.jobs
        if inp.priThrows then
          ⟨m1.jobs, s.events ++ m1.events, s.cancels, m1.gets, none⟩
        else
          let m2 := matchQueue inp inp.priList m1.jobs
          ⟨m2.jobs, s.events ++ m1.events ++ m2.events, s.cancels,
           m1.gets ++ m2.gets, some interval⟩
    else ⟨s.jobs, s.events, s.cancels, [], some interval⟩
  else ⟨s.jobs, s.events, s.cancels, [], none⟩

/-- An operation interleaved into the GPU lane's lifetime: a successful
submission registering a waiter, or one reconciliation cycle. -/
inductive GpuOp where
  | add (w : JobWaiting)
  | cycle (inp : CycleInput)

/-- The GPU lane's state: the waiter registry and whether the loop has died
(a cycle aborted by an uncaught exception never reschedules itself). -/
structure GpuState where
  jobs : List JobWaiting
  dead : Bool
deriving DecidableEq, Repr

/-- Run the GPU lane over a sequence of operations. Submissions append a
waiter; a cycle runs only while the loop is alive, and a cycle that did not
reach its setTimeout leaves the loop dead forever. Returns the final state
and every continuation invocation performed. -/
def runGPU (interval : Nat) (s : GpuState) :
    List GpuOp → GpuState × List ResolveEvent
  | [] => (s, [])
  | .add w :: ops => runGPU interval ⟨s.jobs ++ [w], s.dead⟩ ops
  | .cycle inp :: ops =>
    if s.dead then runGPU interval s ops
    else
      let c := loopCycle interval inp s.jobs
      let r := runGPU interval ⟨c.jobs, c.next.isNone⟩ ops
      (r.1, c.events ++ r.2)

/-- Ids of the waiters registered by the `add` operations of a run. -/
def addedIds : List GpuOp → List String
  | [] => []
  | .add w :: ops => w.id :: addedIds ops
  | .cycle _ :: ops => addedIds ops

/-! ## JobsNoGPU (batch-tester/src/index.ts lines 37-92) -/

/-- Oracle for one JobsNoGPU.addJob call: the capture POST outcome, the
features POST outcome, and file-type sniffing for bufferToBase64. -/
structure NoGpuInput where
  capture : Except Unit ByteBuf
  features : Except Unit Features
  sniff : ByteBuf → Option String

/-- Result of one JobsNoGPU.addJob call: the resolution handed to the
continuation and the external endpoints called, in order. -/
structure NoGpuResult where
  event : JobResolution
  calls : List String
deriving DecidableEq, Repr

/-- JobsNoGPU.addJob: POST to the capture endpoint; when withFeatures, POST
to the features endpoint; base64-encode the capture and resolve with
success. Any caught error resolves with the literal error string "ERROR".
No call is ever retried. -/
def noGpuAddJob (inp : NoGpuInput) (withFeatures : Bool) : NoGpuResult :=
  match inp.capture with
  | .error _ => ⟨failureRes "ERROR", ["capture"]⟩
  | .ok buf =>
    if withFeatures then
      match inp.features with
      | .error _ => ⟨failureRes "ERROR", ["capture", "features"]⟩
      | .ok f =>
        ⟨⟨"success", none, some ⟨bufferToBase64 inp.sniff buf, some f⟩⟩,
         ["capture", "features"]⟩
    else
      ⟨⟨"success", none, some ⟨bufferToBase64 inp.sniff buf, none⟩⟩,
       ["capture"]⟩

/-! ## JobsFactoryClass.runJob (Services/JobsFactory.ts lines 21-44) -/

/-- The settlement state of the promise returned by runJob. -/
inductive PromiseState where
  | pending
  | fulfilled (d : JobResponse)
  | rejected (e : Option String)
deriving DecidableEq, Repr

/-- One invocation of the resolveJob continuation against the promise:
while pending, a resolution with type "success" and truthy data fulfills
with that data, anything else rejects with resolution.error; a settled
promise ignores further resolve/reject calls (ECMAScript promise
semantics). -/
def resolveJobStep (st : PromiseState) (r : JobResolution) : PromiseState :=
  match st with
  | .pending =>
    match r.data with
    | some d => if r.type = "success" then .fulfilled d else .rejected r.error
    | none => .rejected r.error
  | st => st

/-! ## Registry removal lemmas -/

/-- A member is always found by removeFirstJob. -/
theorem removeFirstJob_isSome_of_mem {jobs : List JobWaiting} {job : JobWaiting}
    (h : job ∈ jobs) : ∃ l, removeFirstJob jobs job = some l := by
  induction jobs with
  | nil => cases h
  | cons j rest ih =>
    by_cases hj : j = job
    · exact ⟨rest, by simp [removeFirstJob, hj]⟩
    · rcases List.mem_cons.mp h with h' | h'
      · exact absurd h'.symm hj
      · obtain ⟨l, hl⟩ := ih h'
        exact ⟨j :: l, by simp [removeFirstJob, hj, hl]⟩

/-- removeFirstJob removes exactly one occurrence of the job. -/
theorem removeFirstJob_perm {jobs l : List JobWaiting} {job : JobWaiting}
    (h : removeFirstJob jobs job = some l) : jobs.Perm (job :: l) := by
  induction jobs generalizing l with
  | nil => simp [removeFirstJob] at h
  | cons j rest ih =>
    by_cases hj : j = job
    · subst hj
      simp [removeFirstJob] at h
      subst h
      exact List.Perm.refl _
    · simp [removeFirstJob, hj] at h
      obtain ⟨l', hl', rfl⟩ := h
      exact ((ih hl').cons j).trans (List.Perm.swap _ _ _)

/-- removeFirstJob computes List.erase. -/
theorem removeFirstJob_eq_erase {jobs l : List JobWaiting} {job : JobWaiting}
    (h : removeFirstJob jobs job = some l) : l = jobs.erase job := by
  induction jobs generalizing l with
  | nil => simp [removeFirstJob] at h
  | cons j rest ih =>
    by_cases hj : j = job
    · subst hj
      simp [removeFirstJob] at h
      simp [List.erase_cons, h]
    · simp [removeFirstJob, hj] at h
      obtain ⟨l', hl', rfl⟩ := h
      have hne : (j == job) = false := by simp [hj]
      simp [List.erase_cons, hne, ih hl']

/-- On a member, removeJobFromQueue is List.erase. -/
theorem removeJobFromQueue_eq_erase {jobs : List JobWaiting} {job : JobWaiting}
    (h : job ∈ jobs) : removeJobFromQueue jobs job = jobs.erase job := by
  obtain ⟨l, hl⟩ := removeFirstJob_isSome_of_mem h
  rw [removeJobFromQueue, hl]
  exact removeFirstJob_eq_erase hl

/-- On a member, the registry is a permutation of the removed job consed
onto the remaining registry. -/
theorem removeJobFromQueue_perm {jobs : List JobWaiting} {job : JobWaiting}
    (h : job ∈ jobs) : jobs.Perm (job :: removeJobFromQueue jobs job) := by
  obtain ⟨l, hl⟩ := removeFirstJob_isSome_of_mem h
  rw [removeJobFromQueue, hl]
  exact removeFirstJob_perm hl

/-- Counting version of the removal lemma: removal takes away exactly one
occurrence of the removed job's id. -/
theorem removeJobFromQueue_count {jobs : List JobWaiting} {job : JobWaiting}
    (h : job ∈ jobs) (x : String) :
    (((removeJobFromQueue jobs job).map (·.id)).count x)
      + (if job.id = x then 1 else 0)
      = ((jobs.map (·.id)).count x) := by
  have hp := (removeJobFromQueue_perm h).map (·.id)
  rw [hp.count_eq x]
  simp [List.count_cons]

/-! ## Conservation: continuation invocations are paired with removals -/

/-- jobSuccess always removes the job from the registry, whatever the
artifact fetch does. -/
theorem jobSuccess_jobs (inp : CycleInput) (job : JobWaiting)
    (jobs : List JobWaiting) :
    (jobSuccess inp job jobs).jobs = removeJobFromQueue jobs job := by
  unfold jobSuccess
  repeat' split
  all_goals rfl

/-- jobSuccess resolves the continuation of exactly the removed job. -/
theorem jobSuccess_event_id (inp : CycleInput) (job : JobWaiting)
    (jobs : List JobWaiting) :
    (jobSuccess inp job jobs).event.1 = job.id := by
  unfold jobSuccess
  repeat' split
  all_goals rfl

/-- The timeout sweep conserves ids: every continuation invocation it emits
is paired with the removal of the corresponding waiter. -/
theorem sweepGo_count (inp : CycleInput) (x : String) :
    ∀ (fuel : Nat) (jobs : List JobWaiting) (k : Nat)
      (cancels : List String) (events : List ResolveEvent),
      (((sweepGo inp fuel jobs k cancels events).jobs.map (·.id)).count x)
        + (((sweepGo inp fuel jobs k cancels events).events.map Prod.fst).count x)
      = ((jobs.map (·.id)).count x) + ((events.map Prod.fst).count x) := by
  intro fuel
  induction fuel with
  | zero => intro jobs k c e; simp [sweepGo]
  | succ n ih =>
    intro jobs k c e
    rw [sweepGo]
    split
    case isTrue h =>
      split
      case isTrue ht =>
        split
        case isTrue hc => simp
        case isFalse hc =>
          have hmem : jobs[k] ∈ jobs := List.getElem_mem h
          have hcount := removeJobFromQueue_count hmem x
          rw [ih]
          simp only [List.map_append, List.count_append, List.map_cons,
            List.map_nil, List.count_cons, List.count_nil]
          by_cases hx : jobs[k].id = x
          · simp only [hx, if_pos rfl] at hcount ⊢
            simp only [beq_self_eq_true, if_pos rfl]
            omega
          · simp only [if_neg hx] at hcount
            have : (jobs[k].id == x) = false := by
              simp [hx]
            simp only [this, if_neg Bool.false_ne_true]
            omega
      case isFalse ht => rw [ih]
    case isFalse h => simp

/-- A matching pass conserves ids: every continuation invocation it emits is
paired with the removal of the corresponding waiter. -/
theorem matchGo_count (inp : CycleInput) (listing : Option (List JobSummary))
    (x : String) :
    ∀ (i : Nat) (jobs : List JobWaiting) (events : List ResolveEvent)
      (gets : List String),
      (((matchGo inp listing jobs i events gets).jobs.map (·.id)).count x)
        + (((matchGo inp listing jobs i events gets).events.map Prod.fst).count x)
      = ((jobs.map (·.id)).count x) + ((events.map Prod.fst).count x) := by
  intro i
  induction i with
  | zero => intro jobs e g; simp [matchGo]
  | succ n ih =>
    intro jobs e g
    rw [matchGo]
    split
    case h_1 => rw [ih]
    case h_2 job hj =>
      have hmem : job ∈ jobs := by
        have := List.getElem?_eq_some.mp hj
        obtain ⟨hlt, hget⟩ := this
        exact hget ▸ List.getElem_mem hlt
      split
      case h_1 => rw [ih]
      case h_2 jr hjr =>
        split
        case isTrue hst =>
          have hcount := removeJobFromQueue_count hmem x
          rw [ih]
          rw [jobSuccess_jobs]
          simp only [List.map_append, List.count_append, List.map_cons,
            List.map_nil, List.count_cons, List.count_nil,
            jobSuccess_event_id]
          by_cases hx : job.id = x
          · simp only [hx, if_pos rfl] at hcount ⊢
            simp only [beq_self_eq_true, if_pos rfl]
            omega
          · simp only [if_neg hx] at hcount
            have hb : (job.id == x) = false := by simp [hx]
            simp only [hb, if_neg Bool.false_ne_true]
            omega
        case isFalse hst =>
          split
          case isTrue hst2 =>
            have hcount := removeJobFromQueue_count hmem x
            rw [ih]
            simp only [jobFailed, List.map_append, List.count_append,
              List.map_cons, List.map_nil, List.count_cons, List.count_nil]
            by_cases hx : job.id = x
            · simp only [hx, if_pos rfl] at hcount ⊢
              simp only [beq_self_eq_true, if_pos rfl]
              omega
            · simp only [if_neg hx] at hcount
              have hb : (job.id == x) = false := by simp [hx]
              simp only [hb, if_neg Bool.false_ne_true]
              omega
          case isFalse hst2 => rw [ih]

/-- One reconciliation cycle conserves ids: the ids of the registry after
the cycle plus the ids of the continuations invoked during the cycle are
exactly the ids of the registry before the cycle. -/
theorem loopCycle_count (interval : Nat) (inp : CycleInput)
    (jobs : List JobWaiting) (x : String) :
    (((loopCycle interval inp jobs).jobs.map (·.id)).count x)
      + (((loopCycle interval inp jobs).events.map Prod.fst).count x)
    = ((jobs.map (·.id)).count x) := by
  have hs := sweepGo_count inp x jobs.length jobs 0 [] []
  simp only [List.map_nil, List.count_nil, Nat.add_zero] at hs
  unfold loopCycle sweepTimeouts matchQueue
  dsimp only
  generalize hS : sweepGo inp jobs.length jobs 0 [] [] = S at hs ⊢
  split
  case isTrue halive =>
    split
    case isTrue hlen =>
      split
      case isTrue hstd => exact hs
      case isFalse hstd =>
        have hm1 := matchGo_count inp inp.stdList x S.jobs.length S.jobs [] []
        simp only [List.map_nil, List.count_nil, Nat.add_zero] at hm1
        generalize hM1 :
          matchGo inp inp.stdList S.jobs S.jobs.length [] [] = M1 at hm1 ⊢
        split
        case isTrue hpri =>
          simp only [List.map_append, List.count_append]
          omega
        case isFalse hpri =>
          have hm2 := matchGo_count inp inp.priList x M1.jobs.length M1.jobs [] []
          simp only [List.map_nil, List.count_nil, Nat.add_zero] at hm2
          generalize hM2 :
            matchGo inp inp.priList M1.jobs M1.jobs.length [] [] = M2 at hm2 ⊢
          simp only [List.map_append, List.count_append]
          omega
    case isFalse hlen => exact hs
  case isFalse halive => exact hs

/-- A whole run of the GPU lane conserves ids: final registry ids plus
invoked-continuation ids are exactly the initial registry ids plus the ids
registered along the way. -/
theorem runGPU_count (interval : Nat) (x : String) :
    ∀ (ops : List GpuOp) (s : GpuState),
      (((runGPU interval s ops).1.jobs.map (·.id)).count x)
        + (((runGPU interval s ops).2.map Prod.fst).count x)
      = ((s.jobs.map (·.id)).count x) + ((addedIds ops).count x) := by
  intro ops
  induction ops with
  | nil => intro s; simp [runGPU, addedIds]
  | cons op rest ih =>
    intro s
    cases op with
    | add w =>
      rw [runGPU]
      have hrec := ih ⟨s.jobs ++ [w], s.dead⟩
      have h1 : addedIds (GpuOp.add w :: rest) = [w.id] ++ addedIds rest := rfl
      rw [h1]
      simp only [List.map_append, List.count_append, List.map_cons,
        List.map_nil] at hrec ⊢
      omega
    | cycle inp =>
      rw [runGPU]
      split
      case isTrue hdead =>
        rw [ih]
        simp [addedIds]
      case isFalse hdead =>
        dsimp only
        have hc := loopCycle_count interval inp s.jobs x
        have hrec := ih ⟨(loopCycle interval inp s.jobs).jobs,
          (loopCycle interval inp s.jobs).next.isNone⟩
        simp only [addedIds, List.map_append, List.count_append] at hrec ⊢
        omega

/-- C1 (amended): in any run of the GPU lane whose registered external job
ids are pairwise distinct, the continuation of every registered waiter is
invoked at most once across all reconciliation cycles — the timeout sweep
and both matching passes of the same or different cycles included. (The
original "exactly once" fails in the zero direction: see the
counterexample, where an aborted cycle kills the loop and the waiter is
never resolved.) -/
theorem gpu_continuation_at_most_once (interval : Nat) (s : GpuState)
    (ops : List GpuOp) (jid : String)
    (h : (s.jobs.map (·.id) ++ addedIds ops).Nodup) :
    (((runGPU interval s ops).2.map Prod.fst).count jid) ≤ 1 := by
  have hc := runGPU_count interval jid ops s
  have hle := List.nodup_iff_count_le_one.mp h jid
  rw [List.count_append] at hle
  omega

/-- A cycle input for the C1 witness: the standard listing reports job "a"
as FAILED and nothing throws. -/
def c1winput : CycleInput :=
  ⟨10, fun _ => false, false, some [⟨"a", "FAILED"⟩], false, some [],
   fun _ => Except.error (), fun _ => none, fun _ => none⟩

/-- Witness for C1: a concrete one-waiter run where the waiter resolves
exactly once (count 1 ≤ 1). -/
theorem gpu_continuation_at_most_once_witness :
    ((([(⟨"a", 0⟩ : JobWaiting)]).map (·.id) ++
        addedIds [GpuOp.cycle c1winput]).Nodup) ∧
    (((runGPU 1000 ⟨[⟨"a", 0⟩], false⟩ [GpuOp.cycle c1winput]).2.map
        Prod.fst).count "a") ≤ 1 :=
  ⟨by decide,
   gpu_continuation_at_most_once 1000 ⟨[⟨"a", 0⟩], false⟩
     [GpuOp.cycle c1winput] "a" (by decide)⟩

/-- A cycle input whose cancel call throws for every id (C1 counterexample,
first cycle: waiter "a" is timed out at now = TIMEOUT_MS). -/
def c1binput : CycleInput :=
  ⟨3600000, fun _ => true, false, some [], false, some [],
   fun _ => Except.error (), fun _ => none, fun _ => none⟩

/-- A benign later cycle input that would resolve job "a" as SUCCEEDED if
the loop were still alive (C1 counterexample, later cycles). -/
def c1ginput : CycleInput :=
  ⟨3600001, fun _ => false, false, some [⟨"a", "SUCCEEDED"⟩], false, some [],
   fun _ => Except.ok (some [1]), fun _ => some "f", fun _ => none⟩

/-- Counterexample to C1 as stated: waiter "a" is registered; in the first
cycle its cancel call throws, so the cycle aborts without resolving it and
without rescheduling the loop (dead). Across the whole execution — later
would-be cycles included — its continuation is invoked zero times, not
exactly once, and the waiter is still registered. -/
theorem gpu_continuation_zero_invocations_after_loop_death :
    (runGPU 1000 ⟨[⟨"a", 0⟩], false⟩
        [GpuOp.cycle c1binput, GpuOp.cycle c1ginput,
         GpuOp.cycle c1ginput]).2 = [] ∧
    (runGPU 1000 ⟨[⟨"a", 0⟩], false⟩
        [GpuOp.cycle c1binput, GpuOp.cycle c1ginput,
         GpuOp.cycle c1ginput]).1.dead = true ∧
    (runGPU 1000 ⟨[⟨"a", 0⟩], false⟩
        [GpuOp.cycle c1binput, GpuOp.cycle c1ginput,
         GpuOp.cycle c1ginput]).1.jobs = [⟨"a", 0⟩] := by
  decide

/-! ## C2: rescheduling -/

/-- The timeout sweep completes (stays alive) when no cancel call throws. -/
theorem sweepGo_alive (inp : CycleInput)
    (hnc : ∀ s, inp.cancelThrows s = false) :
    ∀ (fuel : Nat) (jobs : List JobWaiting) (k : Nat)
      (cancels : List String) (events : List ResolveEvent),
      (sweepGo inp fuel jobs k cancels events).alive = true := by
  intro fuel
  induction fuel with
  | zero => intro jobs k c e; rfl
  | succ n ih =>
    intro jobs k c e
    rw [sweepGo]
    split
    case isTrue h =>
      split
      case isTrue ht =>
        simp only [hnc, Bool.false_eq_true, if_false]
        exact ih _ _ _ _
      case isFalse ht => exact ih _ _ _ _
    case isFalse h => rfl

/-- C2 (amended): a reconciliation cycle in which no external call throws
schedules the next cycle after exactly the fixed interval, whether or not
the cycle found any work and whatever the registry contains. (The original
"unconditionally … regardless of whether any external call failed" fails:
see the counterexample, where a thrown ListJobs call aborts the cycle
before the setTimeout and the loop terminates.) -/
theorem loop_reschedules_when_no_throw (interval : Nat) (inp : CycleInput)
    (jobs : List JobWaiting)
    (hnc : ∀ s, inp.cancelThrows s = false)
    (hstd : inp.stdThrows = false) (hpri : inp.priThrows = false) :
    (loopCycle interval inp jobs).next = some interval := by
  unfold loopCycle sweepTimeouts
  dsimp only
  rw [if_pos (sweepGo_alive inp hnc jobs.length jobs 0 [] [])]
  split
  case isTrue hlen =>
    rw [if_neg (by rw [hstd]; exact Bool.false_ne_true)]
    rw [if_neg (by rw [hpri]; exact Bool.false_ne_true)]
  case isFalse hlen => rfl

/-- A no-throw cycle input for the C2 witness (empty listings, failing
blob store — irrelevant to rescheduling). -/
def c2winput : CycleInput :=
  ⟨5, fun _ => false, false, some [], false, some [],
   fun _ => Except.error (), fun _ => none, fun _ => none⟩

/-- Witness for C2: a concrete throw-free cycle reschedules after exactly
the configured interval. -/
theorem loop_reschedules_when_no_throw_witness :
    (loopCycle 777 c2winput [⟨"b", 0⟩]).next = some 777 :=
  loop_reschedules_when_no_throw 777 c2winput [⟨"b", 0⟩]
    (fun _ => rfl) rfl rfl

/-- A cycle input whose standard-queue ListJobs call throws. -/
def c2binput : CycleInput :=
  ⟨0, fun _ => false, true, none, false, none,
   fun _ => Except.error (), fun _ => none, fun _ => none⟩

/-- Counterexample to C2 as stated: with a non-empty registry and a thrown
standard-queue listing call, the cycle ends without scheduling a next cycle
(and without resolving anything) — rescheduling is not unconditional under
external-call failure. -/
theorem loop_not_rescheduled_on_list_throw :
    (loopCycle 1000 c2binput [⟨"a", 0⟩]).next = none ∧
    (loopCycle 1000 c2binput [⟨"a", 0⟩]).events = [] := by
  decide

/-! ## C3: the timeout sweep and adjacent timed-out waiters -/

/-- A cycle input at the timeout ceiling with successful cancel calls and
empty listings. -/
def c3input : CycleInput :=
  ⟨3600000, fun _ => false, false, some [], false, some [],
   fun _ => Except.error (), fun _ => none, fun _ => none⟩

/-- C3 failing input, evaluated: two waiters "a" and "b" are both at the
one-hour ceiling, yet the cycle cancels and resolves only "a"; "b" is
skipped (the for-of iterator advances over the element shifted into the
removed slot) and stays registered and unresolved after the cycle — the
claim requires both to be cancelled, removed and resolved in that same
cycle. -/
theorem timeout_sweep_skips_second_of_two :
    loopCycle 1000 c3input [⟨"a", 0⟩, ⟨"b", 0⟩] =
      ⟨[⟨"b", 0⟩],
       [("a", failureRes ExtractError.JOB_EXECUTION_FAILED)],
       ["a"], [], some 1000⟩ := by
  decide

/-! ## C4: a thrown cancel call during the timeout sweep -/

/-- When the sweep reaches a timed-out waiter whose cancel call throws (no
earlier waiter being timed out), the whole sweep dies: nothing has been
removed or resolved, and the only external effect is the attempted
cancel. -/
theorem sweepGo_throw_first_timed (inp : CycleInput)
    (pre post : List JobWaiting) (w : JobWaiting)
    (hpre : ∀ j ∈ pre, inp.now - j.started < TIMEOUT_MS)
    (hw : TIMEOUT_MS ≤ inp.now - w.started)
    (hthrow : inp.cancelThrows w.id = true) :
    ∀ (fuel k : Nat) (c : List String) (e : List ResolveEvent),
      pre.length < k + fuel → k ≤ pre.length →
      sweepGo inp fuel (pre ++ w :: post) k c e
        = ⟨pre ++ w :: post, c ++ [w.id], e, false⟩ := by
  intro fuel
  induction fuel with
  | zero => intro k c e hfk hk; omega
  | succ n ih =>
    intro k c e hfk hk
    have hklen : k < (pre ++ w :: post).length := by
      simp only [List.length_append, List.length_cons]
      omega
    rw [sweepGo, dif_pos hklen]
    rcases Nat.lt_or_ge k pre.length with hkp | hkp
    · have hget : (pre ++ w :: post)[k] = pre[k] :=
        List.getElem_append_left hkp
      rw [hget, if_neg (not_le.mpr (hpre _ (List.getElem_mem hkp)))]
      exact ih (k + 1) c e (by omega) (by omega)
    · have hke : k = pre.length := Nat.le_antisymm hk hkp
      subst hke
      have hget : (pre ++ w :: post)[pre.length] = w := by
        rw [List.getElem_append_right (Nat.le_refl _)]
        simp
      rw [hget, if_pos hw, if_pos hthrow]

/-- C4 (amended): if the cancel call for the first timed-out Waiter of the
sweep throws, the exception propagates out of the cycle: the Waiter is
neither removed from the registry nor resolved, no continuation at all is
invoked that cycle, the listings are never consulted, and the loop is not
rescheduled. (The original claim — failure ignored, Waiter still removed
and resolved — is refuted by the counterexample.) -/
theorem cancel_throw_aborts_cycle (interval : Nat) (inp : CycleInput)
    (pre post : List JobWaiting) (w : JobWaiting)
    (hpre : ∀ j ∈ pre, inp.now - j.started < TIMEOUT_MS)
    (hw : TIMEOUT_MS ≤ inp.now - w.started)
    (hthrow : inp.cancelThrows w.id = true) :
    loopCycle interval inp (pre ++ w :: post)
      = ⟨pre ++ w :: post, [], [w.id], [], none⟩ := by
  unfold loopCycle sweepTimeouts
  dsimp only
  rw [sweepGo_throw_first_timed inp pre post w hpre hw hthrow
    (pre ++ w :: post).length 0 [] []
    (by simp only [List.length_append, List.length_cons]; omega)
    (Nat.zero_le _)]
  rfl

/-- Input for the C4 witness: the single waiter "a" is at the ceiling and
its cancel call throws. -/
def c4winput : CycleInput :=
  ⟨3600000, fun _ => true, false, some [], false, some [],
   fun _ => Except.error (), fun _ => none, fun _ => none⟩

/-- Witness for C4: applying the amended theorem to the singleton registry
["a"] shows the aborted cycle leaves the registry intact, resolves nothing
and does not reschedule. -/
theorem cancel_throw_aborts_cycle_witness :
    (TIMEOUT_MS ≤ c4winput.now - (⟨"a", 0⟩ : JobWaiting).started) ∧
    c4winput.cancelThrows "a" = true ∧
    loopCycle 500 c4winput [⟨"a", 0⟩]
      = ⟨[⟨"a", 0⟩], [], ["a"], [], none⟩ :=
  ⟨by decide, rfl,
   cancel_throw_aborts_cycle 500 c4winput [] [] ⟨"a", 0⟩
     (by simp) (by decide) rfl⟩

/-- Input for the C4 counterexample, identical in shape to the witness
input but a distinct fixture. -/
def c4binput : CycleInput :=
  ⟨3600123, fun _ => true, false, some [], false, some [],
   fun _ => Except.error (), fun _ => none, fun _ => none⟩

/-- Counterexample to C4 as stated: the timed-out waiter "a" whose cancel
call throws is NOT removed from the registry and its continuation is NOT
resolved with JOB_EXECUTION_FAILED — the failure is not ignored, it aborts
the cycle (no reschedule) right after the cancel attempt. -/
theorem cancel_throw_leaves_waiter_unresolved :
    (loopCycle 1000 c4binput [⟨"a", 0⟩]).events = [] ∧
    (loopCycle 1000 c4binput [⟨"a", 0⟩]).jobs = [⟨"a", 0⟩] ∧
    (loopCycle 1000 c4binput [⟨"a", 0⟩]).cancels = ["a"] ∧
    (loopCycle 1000 c4binput [⟨"a", 0⟩]).next = none := by
  decide

/-! ## C5: SUCCEEDED matching, artifact fetch and resolution -/

/-- C5: a Waiter handed to jobSuccess (as happens when its job id is
matched in a listing with terminal status SUCCEEDED) is removed from the
registry, and the artifacts are fetched from the blob store at exactly
id/preview.png and id/features.json; when both are retrievable the
continuation resolves with Success carrying the base64-encoded preview and
the parsed features.json content, and when retrieval of either fails it
resolves with Failure JOB_EXECUTION_FAILED — never with Success. -/
theorem jobSuccess_resolution_correct (inp : CycleInput) (job : JobWaiting)
    (jobs : List JobWaiting) (hmem : job ∈ jobs) :
    (jobSuccess inp job jobs).jobs = jobs.erase job ∧
    (jobSuccess inp job jobs).event.1 = job.id ∧
    (∀ pb fb f,
      inp.s3 (job.id ++ "/preview.png") = Except.ok (some pb) →
      inp.s3 (job.id ++ "/features.json") = Except.ok (some fb) →
      inp.parse fb = some f →
      (jobSuccess inp job jobs).event.2
          = successRes (bufferToBase64 inp.sniff pb) f ∧
      (jobSuccess inp job jobs).gets
          = [job.id ++ "/preview.png", job.id ++ "/features.json"]) ∧
    ((inp.s3 (job.id ++ "/preview.png") = Except.error () ∨
      inp.s3 (job.id ++ "/preview.png") = Except.ok none ∨
      inp.s3 (job.id ++ "/features.json") = Except.error () ∨
      inp.s3 (job.id ++ "/features.json") = Except.ok none) →
      (jobSuccess inp job jobs).event.2
        = failureRes ExtractError.JOB_EXECUTION_FAILED) := by
  refine ⟨?_, jobSuccess_event_id inp job jobs, ?_, ?_⟩
  · rw [jobSuccess_jobs, removeJobFromQueue_eq_erase hmem]
  · intro pb fb f h1 h2 h3
    unfold jobSuccess
    rw [h1, h2]
    dsimp only
    rw [h3]
    exact ⟨rfl, rfl⟩
  · intro hfail
    unfold jobSuccess
    rcases hfail with h | h | h | h
    · rw [h]
    · rw [h]
      rcases h2 : inp.s3 (job.id ++ "/features.json") with u | fb
      · rfl
      · rcases fb with _ | fb2 <;> rfl
    · rcases h1 : inp.s3 (job.id ++ "/preview.png") with u | pb
      · rfl
      · rw [h]
    · rcases h1 : inp.s3 (job.id ++ "/preview.png") with u | pb
      · rfl
      · rw [h]

/-- Blob-store oracle for the C5 witness: every key holds bytes [1, 2, 3]
and features parse to a fixed payload. -/
def c5winput : CycleInput :=
  ⟨0, fun _ => false, false, some [], false, some [],
   fun _ => Except.ok (some [1, 2, 3]),
   fun _ => some "parsedFeatures", fun _ => none⟩

/-- Witness for C5: with both artifacts retrievable, the continuation of
waiter "j" resolves with Success carrying the base64 preview and the
parsed features. -/
theorem jobSuccess_resolution_correct_witness :
    ((⟨"j", 0⟩ : JobWaiting) ∈ [(⟨"j", 0⟩ : JobWaiting)]) ∧
    (jobSuccess c5winput ⟨"j", 0⟩ [⟨"j", 0⟩]).event.2
      = successRes (bufferToBase64 c5winput.sniff [1, 2, 3]) "parsedFeatures" :=
  ⟨by decide,
   ((jobSuccess_resolution_correct c5winput ⟨"j", 0⟩ [⟨"j", 0⟩]
       (by decide)).2.2.1 [1, 2, 3] [1, 2, 3] "parsedFeatures"
     rfl rfl rfl).1⟩

/-! ## C6: submission failure leaves the registry untouched -/

/-- C6: when the external submission yields no job id — the SubmitJob call
throws, or its response carries no jobId — addJob resolves the request's
continuation with Failure JOB_QUEUE_FAILED before returning, and no waiter
is added: the registry is exactly unchanged (hence so is its length). -/
theorem addJob_submission_failure_no_waiter (env : ExtractEnv)
    (submit : Submission → SubmitOutcome) (priority : Option Bool)
    (settings : CaptureSettings) (now : Nat) (jobs : List JobWaiting)
    (h : ∀ sub, submit sub = SubmitOutcome.throws ∨
                submit sub = SubmitOutcome.ok none) :
    (addJobGPU env submit priority settings now jobs).jobs = jobs ∧
    (addJobGPU env submit priority settings now jobs).resolved
      = [failureRes ExtractError.JOB_QUEUE_FAILED] := by
  unfold addJobGPU
  cases hb : buildCommand settings with
  | error e => exact ⟨rfl, rfl⟩
  | ok cmd =>
    dsimp only
    rcases h ⟨env.jobDefArn, env.jobName,
      if priority = some true then env.queuePriorityArn else env.queueArn,
      cmd⟩ with h' | h' <;> rw [h'] <;> exact ⟨rfl, rfl⟩

/-- Settings fixture for the C6 witness. -/
def c6wsettings : CaptureSettings :=
  ⟨"u", CaptureMode.CANVAS, none, none, none, some "cv", some true⟩

/-- Environment fixture for the C6 witness. -/
def c6wenv : ExtractEnv := ⟨"def", "name", "q", "qp", "bucket"⟩

/-- Witness for C6: a submission whose response carries no jobId leaves the
one-waiter registry unchanged and resolves with JOB_QUEUE_FAILED. -/
theorem addJob_submission_failure_no_waiter_witness :
    (addJobGPU c6wenv (fun _ => SubmitOutcome.ok none) (some false)
        c6wsettings 5 [⟨"z", 1⟩]).jobs = [⟨"z", 1⟩] ∧
    (addJobGPU c6wenv (fun _ => SubmitOutcome.ok none) (some false)
        c6wsettings 5 [⟨"z", 1⟩]).resolved
      = [failureRes ExtractError.JOB_QUEUE_FAILED] :=
  addJob_submission_failure_no_waiter c6wenv (fun _ => SubmitOutcome.ok none)
    (some false) c6wsettings 5 [⟨"z", 1⟩] (fun _ => Or.inr rfl)

/-! ## C7: queue selection -/

/-- C7: every submission sent by addJob uses the shared job-definition
reference, and targets the high-priority queue reference exactly when the
request has priority = true, the standard queue reference when priority is
false or absent — the two differ only in the queue target. -/
theorem addJob_queue_and_jobdef_selection (env : ExtractEnv)
    (submit : Submission → SubmitOutcome) (priority : Option Bool)
    (settings : CaptureSettings) (now : Nat) (jobs : List JobWaiting) :
    ∀ sub ∈ (addJobGPU env submit priority settings now jobs).submissions,
      sub.jobDefinition = env.jobDefArn ∧
      sub.jobQueue = (if priority = some true then env.queuePriorityArn
                      else env.queueArn) := by
  intro sub hsub
  unfold addJobGPU at hsub
  cases hb : buildCommand settings <;> rw [hb] at hsub
  case error e => simp at hsub
  case ok cmd =>
    dsimp only at hsub
    cases hs : submit ⟨env.jobDefArn, env.jobName,
        if priority = some true then env.queuePriorityArn else env.queueArn,
        cmd⟩ <;> rw [hs] at hsub
    case throws =>
      simp at hsub
      subst hsub
      exact ⟨rfl, rfl⟩
    case ok o =>
      cases o with
      | none =>
        simp at hsub
        subst hsub
        exact ⟨rfl, rfl⟩
      | some jid =>
        by_cases hj : jid = "" <;> simp [hj] at hsub <;> subst hsub <;>
          exact ⟨rfl, rfl⟩

/-- Settings fixture for the C7 witness. -/
def c7wsettings : CaptureSettings :=
  ⟨"u", CaptureMode.CANVAS, none, none, none, some "cv", some true⟩

/-- Environment fixture for the C7 witness. -/
def c7wenv : ExtractEnv := ⟨"jobdef", "nm", "qstd", "qpri", "bkt"⟩

/-- The submission actually produced for the C7 witness request. -/
def c7wsub : Submission :=
  ⟨"jobdef", "nm", "qpri",
   [JsVal.str "node", .str "index.js", .str "--url", .str "u",
    .str "--mode", .str "CANVAS", .str "--selector", .str "cv"]⟩

/-- Witness for C7: a priority request's submission targets the priority
queue reference and the shared job definition. -/
theorem addJob_queue_and_jobdef_selection_witness :
    (c7wsub ∈ (addJobGPU c7wenv (fun _ => SubmitOutcome.ok (some "id1"))
        (some true) c7wsettings 9 []).submissions) ∧
    c7wsub.jobDefinition = c7wenv.jobDefArn ∧
    c7wsub.jobQueue = (if (some true : Option Bool) = some true
                       then c7wenv.queuePriorityArn else c7wenv.queueArn) :=
  ⟨by decide,
   addJob_queue_and_jobdef_selection c7wenv
     (fun _ => SubmitOutcome.ok (some "id1")) (some true) c7wsettings 9 []
     c7wsub (by decide)⟩

/-! ## C8: synchronous-lane failure resolution -/

/-- C8 (amended): any failure of the capture call — or of the
feature-extraction call when features were requested — resolves the
continuation with a failure whose error is the literal string "ERROR"
(which is not a member of the ExtractError taxonomy; the HTTP boundary
later maps it to UNKNOWN), and no endpoint is called more than once: a
single failed attempt is terminal. -/
theorem noGpu_failure_resolves_with_error_string (inp : NoGpuInput)
    (withFeatures : Bool)
    (h : inp.capture = Except.error () ∨
         (withFeatures = true ∧ inp.features = Except.error ())) :
    (noGpuAddJob inp withFeatures).event = failureRes "ERROR" ∧
    ((noGpuAddJob inp withFeatures).calls.count "capture") ≤ 1 ∧
    ((noGpuAddJob inp withFeatures).calls.count "features") ≤ 1 := by
  rcases h with h | ⟨hw, h⟩
  · unfold noGpuAddJob
    rw [h]
    dsimp only
    exact ⟨rfl, by decide, by decide⟩
  · subst hw
    cases hc : inp.capture with
    | error e =>
      unfold noGpuAddJob
      rw [hc]
      dsimp only
      exact ⟨rfl, by decide, by decide⟩
    | ok buf =>
      unfold noGpuAddJob
      rw [hc, h]
      refine ⟨rfl, ?_, ?_⟩
      · show List.count "capture" ["capture", "features"] ≤ 1
        decide
      · show List.count "features" ["capture", "features"] ≤ 1
        decide

/-- Oracle fixture for the C8 witness: the capture call fails. -/
def c8winput : NoGpuInput := ⟨Except.error (), Except.ok "feat", fun _ => none⟩

/-- Witness for C8: a failed capture call resolves with error "ERROR" and
calls each endpoint at most once. -/
theorem noGpu_failure_resolves_with_error_string_witness :
    (noGpuAddJob c8winput false).event = failureRes "ERROR" ∧
    ((noGpuAddJob c8winput false).calls.count "capture") ≤ 1 ∧
    ((noGpuAddJob c8winput false).calls.count "features") ≤ 1 :=
  noGpu_failure_resolves_with_error_string c8winput false (Or.inl rfl)

/-- Oracle fixture for the C8 counterexample: the capture call fails. -/
def c8binput : NoGpuInput := ⟨Except.error (), Except.ok "x", fun _ => none⟩

/-- Counterexample to C8 as stated: a failed capture call resolves the
continuation with the error string "ERROR", which is not the UNKNOWN error
kind the claim requires. -/
theorem noGpu_failure_error_not_unknown :
    (noGpuAddJob c8binput false).event.error = some "ERROR" ∧
    (noGpuAddJob c8binput false).event.error ≠ some ExtractError.UNKNOWN := by
  decide

/-! ## C9: command construction order -/

/-- C9: the container command override is built deterministically from the
capture settings as the base arguments, then the mode-specific required
argument (`--selector` for CANVAS, `--resX`/`--resY` for VIEWPORT), then
`--trigger` only when triggerMode is set, then `--delay` only when delay is
present and not NaN, in that order. -/
theorem addJob_command_build_order (settings : CaptureSettings)
    (sel : String) (r : Vec2) :
    (settings.mode = CaptureMode.CANVAS →
      settings.canvasSelector = some sel →
      buildCommand settings = Except.ok
        (baseCommandArgs settings ++ [.str "--selector", .str sel]
          ++ (match settings.triggerMode with
              | some t => [JsVal.str "--trigger", JsVal.str t.toStr]
              | none => [])
          ++ (match settings.delay with
              | some (JsNum.int n) => [JsVal.str "--delay", JsVal.num (.int n)]
              | _ => []))) ∧
    (settings.mode = CaptureMode.VIEWPORT →
      settings.resolution = some r →
      buildCommand settings = Except.ok
        (baseCommandArgs settings
          ++ [.str "--resX", .num r.x, .str "--resY", .num r.y]
          ++ (match settings.triggerMode with
              | some t => [JsVal.str "--trigger", JsVal.str t.toStr]
              | none => [])
          ++ (match settings.delay with
              | some (JsNum.int n) => [JsVal.str "--delay", JsVal.num (.int n)]
              | _ => []))) := by
  constructor
  · intro hm hsel
    unfold buildCommand
    rw [hm, hsel]
    rcases htm : settings.triggerMode with _ | t <;>
      rcases hd : settings.delay with _ | v <;>
      first
        | rfl
        | (rcases v with n | _ <;> rfl)
  · intro hm hres
    unfold buildCommand
    rw [hm, hres]
    rcases htm : settings.triggerMode with _ | t <;>
      rcases hd : settings.delay with _ | v <;>
      first
        | rfl
        | (rcases v with n | _ <;> rfl)

/-- Settings fixture for the C9 witness: CANVAS mode with a trigger mode
and a numeric delay. -/
def c9wsettings : CaptureSettings :=
  ⟨"https://x", CaptureMode.CANVAS, some CaptureTriggerMode.DELAY, none,
   some (JsNum.int 120), some "canvas#c", some true⟩

/-- Witness for C9: the command for a CANVAS request with trigger and delay
is the base arguments, the selector, the trigger and the delay, in that
order. -/
theorem addJob_command_build_order_witness :
    c9wsettings.mode = CaptureMode.CANVAS ∧
    c9wsettings.canvasSelector = some "canvas#c" ∧
    buildCommand c9wsettings = Except.ok
      [JsVal.str "node", .str "index.js", .str "--url", .str "https://x",
       .str "--mode", .str "CANVAS", .str "--selector", .str "canvas#c",
       .str "--trigger", .str "DELAY", .str "--delay", .num (JsNum.int 120)] :=
  ⟨rfl, rfl,
   (addJob_command_build_order c9wsettings "canvas#c"
     ⟨JsNum.int 0, JsNum.int 0⟩).1 rfl rfl⟩

/-! ## C10: the runJob promise settles exactly as the first resolution -/

/-- A settled promise ignores every later continuation invocation:
resolveJobStep is the identity on non-pending states. -/
theorem resolveJobStep_settled (s : PromiseState)
    (hs : s ≠ PromiseState.pending) :
    ∀ rs : List JobResolution, rs.foldl resolveJobStep s = s := by
  intro rs
  induction rs with
  | nil => rfl
  | cons r t ih =>
    have hstep : resolveJobStep s r = s := by
      cases s with
      | pending => exact absurd rfl hs
      | fulfilled d => rfl
      | rejected e => rfl
    rw [List.foldl_cons, hstep]
    exact ih

/-- C10: the promise returned by runJob settles at most once, and its
outcome is fixed by the first invocation of the resolveJob continuation: a
resolution of type "success" with non-null data fulfills with that data,
every other first resolution (including "success" without data) rejects
with resolution.error, and all later invocations leave the settled outcome
unchanged. -/
theorem runJob_settles_once_first_resolution (r : JobResolution)
    (rs : List JobResolution) :
    (r :: rs).foldl resolveJobStep PromiseState.pending
        = resolveJobStep PromiseState.pending r ∧
    resolveJobStep PromiseState.pending r ≠ PromiseState.pending ∧
    (∀ d, r.type = "success" → r.data = some d →
      resolveJobStep PromiseState.pending r = PromiseState.fulfilled d) ∧
    ((r.type ≠ "success" ∨ r.data = none) →
      resolveJobStep PromiseState.pending r = PromiseState.rejected r.error) := by
  have hnp : resolveJobStep PromiseState.pending r ≠ PromiseState.pending := by
    unfold resolveJobStep
    cases hd : r.data with
    | none => simp
    | some d => split <;> split <;> (try split) <;> simp
  refine ⟨?_, hnp, ?_, ?_⟩
  · rw [List.foldl_cons]
    exact resolveJobStep_settled _ hnp rs
  · intro d ht hd
    unfold resolveJobStep
    rw [hd]
    dsimp only
    rw [if_pos ht]
  · intro h
    unfold resolveJobStep
    rcases h with h | h
    · cases hd : r.data with
      | none => rfl
      | some d =>
        dsimp only
        rw [if_neg h]
    · rw [h]

/-- Resolution fixture for the C10 witness: a success carrying data. -/
def c10wres : JobResolution := ⟨"success", none, some ⟨"cap64", some "f"⟩⟩

/-- Witness for C10: with a success-with-data first resolution followed by
a late failure invocation, the promise is fulfilled with the first
resolution's data. -/
theorem runJob_settles_once_first_resolution_witness :
    ([c10wres, failureRes "ERROR"].foldl resolveJobStep PromiseState.pending
        = resolveJobStep PromiseState.pending c10wres) ∧
    resolveJobStep PromiseState.pending c10wres
        = PromiseState.fulfilled ⟨"cap64", some "f"⟩ :=
  ⟨(runJob_settles_once_first_resolution c10wres [failureRes "ERROR"]).1,
   (runJob_settles_once_first_resolution c10wres [failureRes "ERROR"]).2.2.1
     ⟨"cap64", some "f"⟩ rfl rfl⟩
